import Mathlib

/-!
Verification of the Espresso batch validation and sequencing core of
EspressoSystems/op-espresso-integration against its specification.

The development shallowly embeds the relevant Go code:
 * `op-node/espresso/commit.go` — the Keccak-based commitment builder;
 * `op-service/espresso/types.go` — Header / L1BlockInfo / NmtRoot types,
   their commitments and JSON codecs;
 * `op-service/espresso/client.go` — `NamespaceResponse.Validate`;
 * `op-node/rollup/derive` batch validation — `EspressoL1Origin`,
   `checkBookends`, `CheckBatchEspresso`, `checkSingularBatch`,
   `EspressoProvider.VerifyCommitments`.

Machine integers (`uint64`, bytes) are modelled as `Nat`; byte strings as
`List Nat` with values below 256.  External effects (the L1 fetcher, the
commitment contract, JSON parsing of opaque blobs and the external NMT
checker) are passed as explicit function parameters.
-/

set_option maxRecDepth 1000000

/-! ### Keccak-256 (go-ethereum `crypto.NewKeccakState`, legacy 0x01 padding) -/

def M64 : Nat := 2 ^ 64

def rotl64 (x n : Nat) : Nat :=
  ((x <<< n) % M64) ||| (x >>> (64 - n))

def not64 (x : Nat) : Nat := x ^^^ (M64 - 1)

def keccakRC : List Nat :=
  [1, 32898, 9223372036854808714,
   9223372039002292224, 32907, 2147483649,
   9223372039002292353, 9223372036854808585, 138,
   136, 2147516425, 2147483658,
   2147516555, 9223372036854775947, 9223372036854808713,
   9223372036854808579, 9223372036854808578, 9223372036854775936,
   32778, 9223372039002259466, 9223372039002292353,
   9223372036854808704, 2147483649, 9223372039002292232]

/-- Source lane of each destination lane under the π permutation
(destination index j = x + 5·y). -/
def piSrc : List Nat :=
  [0, 6, 12, 18, 24, 3, 9, 10, 16, 22, 1, 7, 13, 19, 20,
   4, 5, 11, 17, 23, 2, 8, 14, 15, 21]

/-- ρ rotation offset applied to the source lane of each destination lane. -/
def rhoByDest : List Nat :=
  [0, 44, 43, 21, 14, 28, 20, 3, 45, 61, 1, 6, 25, 8, 18,
   27, 36, 10, 15, 56, 62, 55, 39, 41, 2]

def idx (s : List Nat) (i : Nat) : Nat := s.getD i 0

def theta (s : List Nat) : List Nat :=
  let c : List Nat := (List.range 5).map fun x =>
    idx s x ^^^ idx s (x + 5) ^^^ idx s (x + 10) ^^^ idx s (x + 15) ^^^ idx s (x + 20)
  let d : List Nat := (List.range 5).map fun x =>
    idx c ((x + 4) % 5) ^^^ rotl64 (idx c ((x + 1) % 5)) 1
  (List.range 25).map fun i => idx s i ^^^ idx d (i % 5)

def rhoPi (s : List Nat) : List Nat :=
  (List.range 25).map fun j => rotl64 (idx s (idx piSrc j)) (idx rhoByDest j)

def chi (s : List Nat) : List Nat :=
  (List.range 25).map fun i =>
    let x := i % 5
    let y5 := i - x
    idx s i ^^^ (not64 (idx s (y5 + (x + 1) % 5)) &&& idx s (y5 + (x + 2) % 5))

def keccakRound (s : List Nat) (rc : Nat) : List Nat :=
  match chi (rhoPi (theta s)) with
  | [] => []
  | a :: rest => (a ^^^ rc) :: rest

def keccakF (s : List Nat) : List Nat := keccakRC.foldl keccakRound s

/-- Interpret up to 8 bytes little-endian as a 64-bit lane. -/
def le64 (bs : List Nat) : Nat :=
  bs.foldr (fun b acc => acc * 256 + b) 0

/-- Absorb one 136-byte block into the sponge state (rate 136 = 17 lanes). -/
def absorbBlock (s : List Nat) (block : List Nat) : List Nat :=
  let lanes := (List.range 17).map fun i => le64 ((block.drop (8 * i)).take 8)
  keccakF ((List.range 25).map fun i => idx s i ^^^ (if i < 17 then idx lanes i else 0))

def chunks136Fuel : Nat → List Nat → List (List Nat)
  | 0, _ => []
  | _, [] => []
  | fuel + 1, l => l.take 136 :: chunks136Fuel fuel (l.drop 136)

def chunks136 (l : List Nat) : List (List Nat) := chunks136Fuel l.length l

/-- Legacy Keccak padding: append 0x01, zero fill, OR 0x80 into the final byte. -/
def keccakPad (msg : List Nat) : List Nat :=
  let r := 136 - msg.length % 136
  if r = 1 then msg ++ [0x81]
  else msg ++ [0x01] ++ List.replicate (r - 2) 0 ++ [0x80]

def lane2bytes (x : Nat) : List Nat :=
  (List.range 8).map fun i => x / 256 ^ i % 256

/-- Keccak-256 digest (32 bytes) of a byte string. -/
def keccak256 (msg : List Nat) : List Nat :=
  let final := (chunks136 (keccakPad msg)).foldl absorbBlock (List.replicate 25 0)
  ((final.take 4).map lane2bytes).flatten

/-! ### Commitment builder (`op-node/espresso/commit.go`)

The Go `RawCommitmentBuilder` wraps an incremental Keccak state; here the
builder state is the list of bytes written so far and `Finalize` hashes it. -/

/-- The bytes of a Go string (all field names are ASCII). -/
def strBytes (s : String) : List Nat := s.data.map Char.toNat

/-- `ConstantString`: the string's bytes followed by the invalid-UTF-8 domain
separator `C0 7F`; the length is not hashed. -/
def ConstantString (b : List Nat) (s : String) : List Nat := b ++ strBytes s ++ [0xC0, 0x7F]

/-- `FixedSizeBytes`: append the bytes verbatim, no length prefix. -/
def FixedSizeBytes (b bytes : List Nat) : List Nat := b ++ bytes

/-- 8-byte little-endian encoding of a `uint64`. -/
def u64LE (n : Nat) : List Nat := (List.range 8).map fun i => n / 256 ^ i % 256

/-- 32-byte little-endian encoding of a `uint256` (Go fills big-endian then
reverses). -/
def u256LE (n : Nat) : List Nat := (List.range 32).map fun i => n / 256 ^ i % 256

def Uint64 (b : List Nat) (n : Nat) : List Nat := b ++ u64LE n

def Uint64Field (b : List Nat) (f : String) (n : Nat) : List Nat := Uint64 (ConstantString b f) n

def Uint256 (b : List Nat) (n : Nat) : List Nat := b ++ u256LE n

def Uint256Field (b : List Nat) (f : String) (n : Nat) : List Nat := Uint256 (ConstantString b f) n

/-- `Field`: a named 32-byte commitment. -/
def CommField (b : List Nat) (f : String) (c : List Nat) : List Nat :=
  FixedSizeBytes (ConstantString b f) c

/-- `FixedSizeField`: a named fixed-size byte string. -/
def FixedSizeField (b : List Nat) (f : String) (bytes : List Nat) : List Nat :=
  FixedSizeBytes (ConstantString b f) bytes

/-- `OptionalField`: the name, then 0x00 if absent or 0x01 followed by the
commitment if present. -/
def OptionalField (b : List Nat) (f : String) (c : Option (List Nat)) : List Nat :=
  match c with
  | none => ConstantString b f ++ [0x00]
  | some comm => ConstantString b f ++ [0x01] ++ comm

/-- `VarSizeBytes`: commit to the length (as `u64`) first, then the bytes. -/
def VarSizeBytes (b bytes : List Nat) : List Nat := b ++ u64LE bytes.length ++ bytes

def VarSizeField (b : List Nat) (f : String) (bytes : List Nat) : List Nat :=
  VarSizeBytes (ConstantString b f) bytes

/-- `NewRawCommitmentBuilder(name)`: fresh builder seeded with the domain tag. -/
def NewRawCommitmentBuilder (name : String) : List Nat := ConstantString [] name

def Finalize (b : List Nat) : List Nat := keccak256 b

/-! ### `op-service/espresso` types (`types.go`) and their commitments -/

structure NmtRoot where
  root : List Nat
deriving DecidableEq

/-- `NmtRoot.Commit`: domain tag `NMTROOT`, length-prefixed root bytes. -/
def NmtRoot.Commit (self : NmtRoot) : List Nat :=
  Finalize (VarSizeField (NewRawCommitmentBuilder ("NMTROOT")) ("root") self.root)

structure L1BlockInfo where
  number : Nat
  timestamp : Nat
  hash : List Nat
deriving DecidableEq

/-- `L1BlockInfo.Commit`: domain tag `L1BLOCK`, u64 number, u256 timestamp,
32-byte hash. -/
def L1BlockInfo.Commit (self : L1BlockInfo) : List Nat :=
  Finalize (FixedSizeField
    (Uint256Field (Uint64Field (NewRawCommitmentBuilder ("L1BLOCK")) ("number") self.number)
      ("timestamp") self.timestamp)
    ("hash") self.hash)

structure Metadata where
  timestamp : Nat
  l1Head : Nat
  l1Finalized : Option L1BlockInfo
deriving DecidableEq

structure Header where
  transactionsRoot : NmtRoot
  metadata : Metadata
deriving DecidableEq

/-- `Header.Commit`: domain tag `BLOCK`, u64 timestamp, u64 l1_head, optional
l1_finalized commitment, transactions_root commitment. -/
def Header.Commit (self : Header) : List Nat :=
  Finalize (CommField
    (OptionalField
      (Uint64Field (Uint64Field (NewRawCommitmentBuilder ("BLOCK"))
        ("timestamp") self.metadata.timestamp) ("l1_head") self.metadata.l1Head)
      ("l1_finalized") (self.metadata.l1Finalized.map L1BlockInfo.Commit))
    ("transactions_root") self.transactionsRoot.Commit)

/-! ### Legacy `op-node/espresso` types (`op-node/espresso/types_test.go`)

Modelled from the spec: the legacy `op-node/espresso/types.go` is not among
the provided sources (only its commitment builder `commit.go` and its tests
are).  Per the spec (§6, design notes) the older Header variant is
`{ timestamp, l1_block, transactions_root }` with a 2-field
`L1BlockInfo { number, timestamp }` ("legacy form without hash field"); the
commitments use the same builder with the same domain tags and field names. -/

structure LegacyL1BlockInfo where
  number : Nat
  timestamp : Nat
deriving DecidableEq

/-- Modelled from the spec: legacy 2-field `L1BlockInfo.Commit` (no hash). -/
def LegacyL1BlockInfo.Commit (self : LegacyL1BlockInfo) : List Nat :=
  Finalize (Uint256Field
    (Uint64Field (NewRawCommitmentBuilder ("L1BLOCK")) ("number") self.number)
    ("timestamp") self.timestamp)

structure LegacyHeader where
  timestamp : Nat
  l1Block : LegacyL1BlockInfo
  transactionsRoot : NmtRoot
deriving DecidableEq

/-- Modelled from the spec: legacy `Header.Commit` over
`{ timestamp, l1_block, transactions_root }`. -/
def LegacyHeader.Commit (self : LegacyHeader) : List Nat :=
  Finalize (CommField
    (CommField (Uint64Field (NewRawCommitmentBuilder ("BLOCK")) ("timestamp") self.timestamp)
      ("l1_block") self.l1Block.Commit)
    ("transactions_root") self.transactionsRoot.Commit)

/-- The reference NmtRoot of the test vectors: 48 zero bytes. -/
def ReferenceNmtRoot : NmtRoot := ⟨List.replicate 48 0⟩

def ReferenceL1BlockInfo : LegacyL1BlockInfo := ⟨123, 0x456⟩

def ReferenceHeader : LegacyHeader := ⟨789, ReferenceL1BlockInfo, ReferenceNmtRoot⟩

/-- fb50e8c35b028a12f0e71fac36cc5a2ad72a48bb0f1c804395751a72e839be0a -/
def ReferenceNmtRootComm : List Nat :=
  [251, 80, 232, 195, 91, 2, 138, 18, 240, 231, 31, 172, 54, 204, 90, 42,
   215, 42, 72, 187, 15, 28, 128, 67, 149, 117, 26, 114, 232, 57, 190, 10]

/-- 8bfda7b181d90b15b5e9448cedf9c3af28484de20c0e4b2189bce66bbae196c9 -/
def ReferenceL1BlockInfoComm : List Nat :=
  [139, 253, 167, 177, 129, 217, 11, 21, 181, 233, 68, 140, 237, 249, 195, 175,
   40, 72, 77, 226, 12, 14, 75, 33, 137, 188, 230, 107, 186, 225, 150, 201]

/-- db13b200abe1a3ce24082254a360f834e955fe595df9718e5fcc66674afa2d67 -/
def ReferenceHeaderComm : List Nat :=
  [219, 19, 178, 0, 171, 225, 163, 206, 36, 8, 34, 84, 163, 96, 248, 52,
   233, 85, 254, 89, 93, 249, 113, 142, 95, 204, 102, 103, 74, 250, 45, 103]

/-! ### JSON model (`op-service/espresso/types.go` codecs)

Go's `encoding/json` output is modelled as a JSON syntax tree.  `Bytes`
serializes as an array of integers, `U256` as a `0x`-prefixed lowercase hex
string, `common.Hash` as a `0x`-prefixed 64-digit hex string, and an absent
`l1_finalized` as `null`.  A struct serializes as an object listing its
fields in declaration order; the embedded `Metadata` carries the json tag
`metadata` and therefore nests. -/

inductive Json where
  | null : Json
  | num (n : Nat) : Json
  | str (s : List Char) : Json
  | arr (xs : List Json) : Json
  | obj (fields : List (String × Json)) : Json

def hexDigitChar (d : Nat) : Char :=
  Char.ofNat (if d < 10 then 48 + d else 87 + d)

/-- Value of a hex digit character (Go `fmt`/`hexutil` accept both cases). -/
def hexCharVal (c : Char) : Option Nat :=
  let n := c.toNat
  if 48 ≤ n ∧ n ≤ 57 then some (n - 48)
  else if 97 ≤ n ∧ n ≤ 102 then some (n - 87)
  else if 65 ≤ n ∧ n ≤ 70 then some (n - 55)
  else none

def toHexAux : Nat → Nat → List Char
  | 0, _ => []
  | fuel + 1, n => if n = 0 then [] else toHexAux fuel (n / 16) ++ [hexDigitChar (n % 16)]

/-- Minimal-length lowercase hex digits of `n` (Go `big.Int.Text(16)`). -/
def natToHex (n : Nat) : List Char := if n = 0 then [Char.ofNat 48] else toHexAux n n

def parseHexAux : List Char → Nat → Option Nat
  | [], acc => some acc
  | c :: cs, acc =>
    match hexCharVal c with
    | none => none
    | some d => parseHexAux cs (acc * 16 + d)

/-- Parse a nonempty hex digit string (Go `fmt.Sscanf` with `%x`). -/
def parseHex (cs : List Char) : Option Nat :=
  if cs.isEmpty then none else parseHexAux cs 0

/-- Two hex digits of one byte (Go `hexutil` fixed-width encoding). -/
def byteToHex (b : Nat) : List Char := [hexDigitChar (b / 16), hexDigitChar (b % 16)]

def parseBytePairs : List Char → Option (List Nat)
  | [] => some []
  | c1 :: c2 :: rest =>
    match hexCharVal c1, hexCharVal c2, parseBytePairs rest with
    | some d1, some d2, some bs => some ((d1 * 16 + d2) :: bs)
    | _, _, _ => none
  | [_] => none

/-- `Bytes.MarshalJSON`: a byte string as a JSON array of integers. -/
def encodeBytes (l : List Nat) : Json := Json.arr (l.map Json.num)

/-- `Bytes.UnmarshalJSON`: each element must be an integer in `0..255`. -/
def decodeByteList : List Json → Option (List Nat)
  | [] => some []
  | Json.num n :: rest =>
    if 255 < n then none
    else (decodeByteList rest).map fun bs => n :: bs
  | _ => none

def decodeBytes : Json → Option (List Nat)
  | Json.arr xs => decodeByteList xs
  | _ => none

/-- `U256.MarshalJSON`: `"0x" + Text(16)`. -/
def encodeU256 (n : Nat) : Json :=
  Json.str (Char.ofNat 48 :: Char.ofNat 120 :: natToHex n)

/-- `U256.UnmarshalJSON`: scan `"0x%x"`. -/
def decodeU256 : Json → Option Nat
  | Json.str (c0 :: cx :: rest) =>
    if c0 = Char.ofNat 48 ∧ cx = Char.ofNat 120 then parseHex rest else none
  | _ => none

/-- `common.Hash.MarshalText`: `0x` followed by 64 hex digits. -/
def encodeHash (bs : List Nat) : Json :=
  Json.str (Char.ofNat 48 :: Char.ofNat 120 :: (bs.map byteToHex).flatten)

/-- `common.Hash` decoding (`UnmarshalFixedText`): exactly 32 bytes. -/
def decodeHash : Json → Option (List Nat)
  | Json.str (c0 :: cx :: rest) =>
    if c0 = Char.ofNat 48 ∧ cx = Char.ofNat 120 then
      match parseBytePairs rest with
      | some bs => if bs.length = 32 then some bs else none
      | none => none
    else none
  | _ => none

def jGet (fields : List (String × Json)) (k : String) : Option Json :=
  (fields.find? fun p => p.1 = k).map fun p => p.2

def NmtRoot.toJson (r : NmtRoot) : Json := Json.obj [(("root"), encodeBytes r.root)]

def NmtRoot.fromJson (j : Json) : Option NmtRoot :=
  match j with
  | Json.obj fields =>
    match jGet fields ("root") with
    | some jr => (decodeBytes jr).map NmtRoot.mk
    | none => none
  | _ => none

def L1BlockInfo.toJson (i : L1BlockInfo) : Json :=
  Json.obj [(("number"), Json.num i.number), (("timestamp"), encodeU256 i.timestamp),
    (("hash"), encodeHash i.hash)]

def L1BlockInfo.fromJson (j : Json) : Option L1BlockInfo :=
  match j with
  | Json.obj fields =>
    match jGet fields ("number"), jGet fields ("timestamp"), jGet fields ("hash") with
    | some (Json.num n), some jt, some jh =>
      match decodeU256 jt, decodeHash jh with
      | some t, some h => some ⟨n, t, h⟩
      | _, _ => none
    | _, _, _ => none
  | _ => none

def Metadata.toJson (m : Metadata) : Json :=
  Json.obj [(("timestamp"), Json.num m.timestamp), (("l1_head"), Json.num m.l1Head),
    (("l1_finalized"), match m.l1Finalized with
      | none => Json.null
      | some i => i.toJson)]

def Metadata.fromJson (j : Json) : Option Metadata :=
  match j with
  | Json.obj fields =>
    match jGet fields ("timestamp"), jGet fields ("l1_head"), jGet fields ("l1_finalized") with
    | some (Json.num t), some (Json.num h), some jf =>
      match jf with
      | Json.null => some ⟨t, h, none⟩
      | _ =>
        match L1BlockInfo.fromJson jf with
        | some i => some ⟨t, h, some i⟩
        | none => none
    | _, _, _ => none
  | _ => none

def Header.toJson (h : Header) : Json :=
  Json.obj [(("transactions_root"), h.transactionsRoot.toJson),
    (("metadata"), h.metadata.toJson)]

def Header.fromJson (j : Json) : Option Header :=
  match j with
  | Json.obj fields =>
    match jGet fields ("transactions_root"), jGet fields ("metadata") with
    | some jr, some jm =>
      match NmtRoot.fromJson jr, Metadata.fromJson jm with
      | some r, some m => some ⟨r, m⟩
      | _, _ => none
    | _, _ => none
  | _ => none

/-! ### Rollup / batch data model (`op-node/rollup/derive`, `op-service/eth`)

Hashes are opaque values compared for equality and are modelled as `Nat`. -/

structure BlockID where
  hash : Nat
  number : Nat
deriving DecidableEq

structure L1BlockRef where
  hash : Nat
  number : Nat
  parentHash : Nat
  time : Nat
deriving DecidableEq

structure L2BlockRef where
  hash : Nat
  number : Nat
  parentHash : Nat
  time : Nat
  l1Origin : BlockID
  sequenceNumber : Nat
deriving DecidableEq

/-- The rollup configuration fields consumed by the batch validator. -/
structure RollupConfig where
  blockTime : Nat
  maxSequencerDrift : Nat
  seqWindowSize : Nat
  l2ChainID : Nat
deriving DecidableEq

/-- The `eth.SystemConfig` fields consumed by the Espresso path. -/
structure SystemConfig where
  espresso : Bool
  espressoL1ConfDepth : Nat
deriving DecidableEq

/-- Modelled from the spec: the external-sequencer block header
(`espresso-sequencer-go/types.Header`, an external dependency of the
validator): height, timestamp, l1_head, optional l1_finalized and
transactions_root (§3 of the spec). -/
structure EsHeader where
  height : Nat
  timestamp : Nat
  l1Head : Nat
  l1Finalized : Option L1BlockInfo
  transactionsRoot : NmtRoot
deriving DecidableEq

structure EspressoBlockJustification where
  header : EsHeader
  proof : List Nat
deriving DecidableEq

/-- Modelled from the spec: `eth.L2BatchJustification` (its Go definition in
`op-service/eth` is not among the provided sources): optional `prev` header,
the window's blocks, and the `next` header. -/
structure L2BatchJustification where
  prev : Option EsHeader
  blocks : List EspressoBlockJustification
  next : EsHeader
deriving DecidableEq

/-- Modelled from the spec: `jst.First()` returns the earliest supplied
header — `prev` if present, else the first window block, else `next`
(§4.4 step 11 of the spec). -/
def L2BatchJustification.First (j : L2BatchJustification) : EsHeader :=
  match j.prev with
  | some p => p
  | none =>
    match j.blocks with
    | b :: _ => b.header
    | [] => j.next

structure SingularBatch where
  parentHash : Nat
  epochNum : Nat
  epochHash : Nat
  timestamp : Nat
  transactions : List (List Nat)
  justification : Option L2BatchJustification
deriving DecidableEq

inductive BatchValidity where
  | Drop : BatchValidity
  | Accept : BatchValidity
  | Undecided : BatchValidity
  | Future : BatchValidity
deriving DecidableEq

/-- The L1 block fetcher (`L1BlockRefByNumber`), a host capability. -/
abbrev L1Fetch := Nat → Except Unit L1BlockRef

/-- The commitment verifier capability (`EspressoL1Provider.VerifyCommitments`
returns a Go `(bool, error)` pair). -/
abbrev CommitmentVerifier := Nat → List (List Nat) → Bool × Option Unit

/-- The external NMT checker (`nmt.ValidateBatchTransactions`), an opaque
predicate: `some ()` is a non-nil error. -/
abbrev NmtValidator := Nat → List NmtRoot → List (List Nat) → List (List Nat) → Option Unit

/-! ### L1 origin selection (`EspressoL1Origin`, part_000 lines 423–498) -/

/-- The confirmation-depth adjustment at the top of `EspressoL1Origin`
(saturating subtraction). -/
def confDepthAdjust (sysCfg : SystemConfig) (suggested : Nat) : Nat :=
  if suggested > sysCfg.espressoL1ConfDepth then suggested - sysCfg.espressoL1ConfDepth else 0

def EspressoL1Origin (cfg : RollupConfig) (sysCfg : SystemConfig) (parent : L2BlockRef)
    (suggested : Nat) (l1 : L1Fetch) : Except Unit L1BlockRef :=
  let sugg := confDepthAdjust sysCfg suggested
  let prev := parent.l1Origin
  let windowStart := parent.time + cfg.blockTime
  if sugg > prev.number + 1 then
    match l1 (prev.number + 1) with
    | Except.error e => Except.error e
    | Except.ok nextL1Block =>
      if nextL1Block.time ≤ windowStart then Except.ok nextL1Block
      else l1 prev.number
  else if sugg < prev.number then l1 prev.number
  else
    match l1 sugg with
    | Except.error e => Except.error e
    | Except.ok l1Block =>
      if l1Block.time + cfg.maxSequencerDrift < windowStart then l1 (prev.number + 1)
      else if l1Block.time > windowStart then l1 prev.number
      else Except.ok l1Block

/-- The earlier, pure variant of `EspressoL1Origin` (part_000 lines 40–81):
no confirmation depth, no L1 fetches; returns the chosen origin number. -/
def EspressoL1OriginPure (cfg : RollupConfig) (parent : L2BlockRef)
    (suggested : L1BlockRef) : Nat :=
  let prev := parent.l1Origin
  let windowStart := parent.time + cfg.blockTime
  if suggested.number > prev.number + 1 then prev.number + 1
  else if suggested.number < prev.number then prev.number
  else if suggested.time + cfg.maxSequencerDrift < windowStart then prev.number + 1
  else if suggested.time > windowStart then prev.number
  else suggested.number

def EspressoBatchMustBeEmpty (cfg : RollupConfig) (l1Origin : L1BlockRef)
    (timestamp : Nat) : Bool :=
  l1Origin.time + cfg.maxSequencerDrift < timestamp

/-! ### Bookends (`windowEndpoint.Bookends`, `checkBookends`) -/

inductive windowEndpoint where
  | WindowStart : windowEndpoint
  | WindowEnd : windowEndpoint
deriving DecidableEq

def windowEndpoint.Bookends (e : windowEndpoint) (jst : L2BatchJustification) :
    Option EsHeader × EsHeader :=
  match e with
  | windowEndpoint.WindowStart =>
    (jst.prev,
      match jst.blocks with
      | b :: _ => b.header
      | [] => jst.next)
  | windowEndpoint.WindowEnd =>
    ((match jst.blocks.getLast? with
      | some b => some b.header
      | none => jst.prev),
      jst.next)

def checkBookends (timestamp : Nat) (jst : L2BatchJustification)
    (endpoint : windowEndpoint) : Bool :=
  match endpoint.Bookends jst with
  | (none, next) =>
    if jst.First.height ≠ 0 then false
    else if jst.First.timestamp < timestamp then false
    else if next.timestamp < timestamp then false
    else true
  | (some prev, next) =>
    if prev.timestamp ≥ timestamp then false
    else if next.timestamp < timestamp then false
    else true

/-! ### Espresso batch check (`CheckBatchEspresso`, part_000 lines 506–587)

The external header commitment function, the commitment contract and the NMT
checker are explicit parameters. -/

/-- The commitment sequence `[prev?, blocks…, next]` built by
`CheckBatchEspresso`. -/
def commitmentSequence (commit : EsHeader → List Nat) (jst : L2BatchJustification) :
    List (List Nat) :=
  (match jst.prev with
   | some p => [commit p]
   | none => []) ++ jst.blocks.map (fun b => commit b.header) ++ [commit jst.next]

def CheckBatchEspresso (commit : EsHeader → List Nat) (nmtValidate : NmtValidator)
    (cfg : RollupConfig) (sysCfg : SystemConfig) (l2SafeHead : L2BlockRef)
    (batch : SingularBatch) (verify : CommitmentVerifier) (l1 : L1Fetch) : BatchValidity :=
  match batch.justification with
  | none => BatchValidity.Drop
  | some jst =>
    match verify jst.First.height (commitmentSequence commit jst) with
    | (_, some _) => BatchValidity.Undecided
    | (validComms, none) =>
      if !validComms then BatchValidity.Drop
      else
        let windowStart := l2SafeHead.time + cfg.blockTime
        let windowEnd := windowStart + cfg.blockTime
        if !checkBookends windowStart jst windowEndpoint.WindowStart then BatchValidity.Drop
        else if !checkBookends windowEnd jst windowEndpoint.WindowEnd then BatchValidity.Drop
        else
          match EspressoL1Origin cfg sysCfg l2SafeHead jst.next.l1Head l1 with
          | Except.error _ => BatchValidity.Undecided
          | Except.ok l1Origin =>
            if l1Origin.number ≠ batch.epochNum then BatchValidity.Drop
            else if EspressoBatchMustBeEmpty cfg l1Origin batch.timestamp then
              if batch.transactions.length ≠ 0 then BatchValidity.Drop
              else BatchValidity.Accept
            else
              match nmtValidate cfg.l2ChainID (jst.blocks.map fun b => b.header.transactionsRoot)
                  (jst.blocks.map fun b => b.proof) batch.transactions with
              | some _ => BatchValidity.Drop
              | none => BatchValidity.Accept

/-! ### Generic singular-batch checks (`checkSingularBatch`, lines 620–733) -/

/-- go-ethereum `types.DepositTxType`. -/
def DepositTxType : Nat := 0x7E

/-- The sequencer-drift guard of `checkSingularBatch` (lines 688–715):
`none` means the guard passes and validation continues. -/
def driftGuard (cfg : RollupConfig) (sysCfg : SystemConfig) (epoch batchOrigin : L1BlockRef)
    (l1Blocks : List L1BlockRef) (timestamp : Nat) (transactions : List (List Nat)) :
    Option BatchValidity :=
  if timestamp > batchOrigin.time + cfg.maxSequencerDrift then
    if transactions.length = 0 then
      if epoch.number = batchOrigin.number then
        if l1Blocks.length < 2 then some BatchValidity.Undecided
        else
          let nextOrigin := l1Blocks.getD 1 batchOrigin
          if !sysCfg.espresso && decide (timestamp ≥ nextOrigin.time) then
            some BatchValidity.Drop
          else none
      else none
    else some BatchValidity.Drop
  else none

def checkSingularBatch (commit : EsHeader → List Nat) (nmtValidate : NmtValidator)
    (cfg : RollupConfig) (sysCfg : SystemConfig) (l1Blocks : List L1BlockRef)
    (l2SafeHead : L2BlockRef) (batch : SingularBatch) (l1InclusionBlock : L1BlockRef)
    (verify : CommitmentVerifier) (l1 : L1Fetch) : BatchValidity :=
  match l1Blocks with
  | [] => BatchValidity.Undecided
  | epoch :: _ =>
    let nextTimestamp := l2SafeHead.time + cfg.blockTime
    if batch.timestamp > nextTimestamp then BatchValidity.Future
    else if batch.timestamp < nextTimestamp then BatchValidity.Drop
    else if batch.parentHash ≠ l2SafeHead.hash then BatchValidity.Drop
    else if batch.epochNum + cfg.seqWindowSize < l1InclusionBlock.number then BatchValidity.Drop
    else
      match (if batch.epochNum < epoch.number then Except.error BatchValidity.Drop
             else if batch.epochNum = epoch.number then Except.ok epoch
             else if batch.epochNum = epoch.number + 1 then
               match l1Blocks[1]? with
               | none => Except.error BatchValidity.Undecided
               | some b => Except.ok b
             else Except.error BatchValidity.Drop : Except BatchValidity L1BlockRef) with
      | Except.error v => v
      | Except.ok batchOrigin =>
        if batch.epochHash ≠ batchOrigin.hash then BatchValidity.Drop
        else if batch.timestamp < batchOrigin.time then BatchValidity.Drop
        else
          match driftGuard cfg sysCfg epoch batchOrigin l1Blocks batch.timestamp
              batch.transactions with
          | some v => v
          | none =>
            if batch.transactions.any (fun tx => tx.length = 0 || tx.headD 0 = DepositTxType)
            then BatchValidity.Drop
            else if sysCfg.espresso then
              CheckBatchEspresso commit nmtValidate cfg sysCfg l2SafeHead batch verify l1
            else BatchValidity.Accept

/-! ### Commitment provider (`espresso_provider.go`) -/

/-- `EspressoProvider.VerifyCommitments`: fetch the authenticated commitments
from L1 (`L1HotShotCommitmentsFromHeight`, a host capability) and compare.
The Go result pair `(bool, error)` is `(Bool, Option Unit)`. -/
def EspressoProviderVerifyCommitments (fetch : Nat → Nat → Except Unit (List (List Nat)))
    (firstHeight : Nat) (comms : List (List Nat)) : Bool × Option Unit :=
  match fetch firstHeight comms.length with
  | Except.error _ => (false, some ())
  | Except.ok fetchedComms =>
    if fetchedComms.length ≠ comms.length then (false, some ())
    else if (comms.zip fetchedComms).all (fun p => p.1 == p.2) then (true, none)
    else (false, none)

/-! ### Query-service client (`op-service/espresso/client.go`) -/

structure ClientTransaction where
  vm : Nat
  payload : List Nat
deriving DecidableEq

structure MerkleNode where
  elem : Option ClientTransaction
deriving DecidableEq

structure MerkleProof where
  proof : List MerkleNode
deriving DecidableEq

structure NamespaceProof where
  proofs : List MerkleProof
deriving DecidableEq

structure TransactionsInBlock where
  transactions : List (List Nat)
  proof : List Nat
deriving DecidableEq

/-- The transaction-extraction loop of `NamespaceResponse.Validate`. -/
def extractTxs (ns : Nat) : List MerkleProof → Except Unit (List (List Nat))
  | [] => Except.ok []
  | mp :: rest =>
    match mp.proof with
    | [] => Except.error ()
    | node :: _ =>
      match node.elem with
      | none => Except.error ()
      | some tx =>
        if tx.vm ≠ ns then Except.error ()
        else
          match extractTxs ns rest with
          | Except.error e => Except.error e
          | Except.ok txs => Except.ok (tx.payload :: txs)

/-- `NamespaceResponse.Validate`: decode the raw proof blob (JSON parsing is a
host capability `parse`), extract the transactions, and return them together
with the raw proof.  The `header` parameter is only mentioned by the
source's `TODO` comment; the commitment comparison is not implemented. -/
def NamespaceResponseValidate (parse : List Nat → Except Unit NamespaceProof)
    (rawProof : List Nat) (header : Header) (ns : Nat) :
    Except Unit TransactionsInBlock :=
  match parse rawProof with
  | Except.error _ => Except.error ()
  | Except.ok decoded =>
    match extractTxs ns decoded.proofs with
    | Except.error e => Except.error e
    | Except.ok txs => Except.ok ⟨txs, rawProof⟩

/-! ### Concrete instances used by counterexamples and witnesses -/

def exCfg : RollupConfig := ⟨2, 6, 4, 901⟩

def exSysCfg : SystemConfig := ⟨true, 0⟩

/-- A safe head at time 10 whose L1 origin is block 7; its sequencing window
is `[12, 14)`. -/
def exParent : L2BlockRef := ⟨1, 100, 0, 10, ⟨5, 7⟩, 0⟩

/-- An L1 fetcher answering every height with a block of that number at
time 5. -/
def exFetchConst : L1Fetch := fun n => Except.ok ⟨0, n, 0, 5⟩

/-- An L1 fetcher answering every height with a block of that number, block 8
at time 1 and all others at time 0. -/
def c4L1 : L1Fetch := fun n => Except.ok ⟨n, n, 0, if n = 8 then 1 else 0⟩

def c4H0 : EsHeader := ⟨3, 11, 0, none, ⟨[]⟩⟩

def c4H1 : EsHeader := ⟨4, 12, 0, none, ⟨[]⟩⟩

/-- A window block whose timestamp 100 lies far beyond the window end 14. -/
def c4HBad : EsHeader := ⟨5, 100, 0, none, ⟨[]⟩⟩

def c4H3 : EsHeader := ⟨6, 13, 0, none, ⟨[]⟩⟩

def c4Next : EsHeader := ⟨7, 14, 8, none, ⟨[]⟩⟩

/-- A justification whose first and last window blocks sit inside the window
`[12, 14)` but whose middle block has timestamp 100. -/
def c4Jst : L2BatchJustification :=
  ⟨some c4H0, [⟨c4H1, []⟩, ⟨c4HBad, []⟩, ⟨c4H3, []⟩], c4Next⟩

def c4Batch : SingularBatch := ⟨0, 8, 0, 12, [], some c4Jst⟩

def c4Commit : EsHeader → List Nat := fun _ => []

def c4Verify : CommitmentVerifier := fun _ _ => (true, none)

def c4NmtValidate : NmtValidator := fun _ _ _ _ => none

/-- A justification whose `prev` bookend timestamp 99 is after the window
start 12. -/
def exJstBad : L2BatchJustification :=
  ⟨some ⟨3, 99, 0, none, ⟨[]⟩⟩, [⟨c4H1, []⟩], c4Next⟩

def exBadBatch : SingularBatch := ⟨0, 8, 0, 12, [], some exJstBad⟩

def c5VerifyErr : CommitmentVerifier := fun _ _ => (false, some ())

def c5VerifyFalse : CommitmentVerifier := fun _ _ => (false, none)

def c8HeaderA : Header := ⟨⟨[]⟩, ⟨0, 0, none⟩⟩

def c8HeaderB : Header := ⟨⟨[]⟩, ⟨1, 0, none⟩⟩

def c8Parse : List Nat → Except Unit NamespaceProof :=
  fun _ => Except.ok ⟨[⟨[⟨some ⟨901, [1, 2, 3]⟩⟩]⟩]⟩

def c8Raw : List Nat := [0]

def c8Result : TransactionsInBlock := ⟨[[1, 2, 3]], [0]⟩

def c10Fetch : Nat → Nat → Except Unit (List (List Nat)) := fun _ _ => Except.ok [[1]]

def c9Info : L1BlockInfo := ⟨123, 0x456, List.replicate 32 0⟩

def c9Header : Header := ⟨⟨[0, 255]⟩, ⟨789, 42, some c9Info⟩⟩

def c6Origin : L1BlockRef := ⟨9, 7, 0, 0⟩

def c6Next : L1BlockRef := ⟨1, 8, 0, 5⟩

/-! ### Helper lemmas: hex and JSON codecs -/

theorem hexCharVal_hexDigitChar (d : Nat) (h : d < 16) :
    hexCharVal (hexDigitChar d) = some d := by
  interval_cases d <;> decide

theorem parseHexAux_append (l1 l2 : List Char) (acc : Nat) :
    parseHexAux (l1 ++ l2) acc =
      match parseHexAux l1 acc with
      | some a => parseHexAux l2 a
      | none => none := by
  induction l1 generalizing acc with
  | nil => simp [parseHexAux]
  | cons c cs ih =>
    simp only [List.cons_append, parseHexAux]
    cases hexCharVal c with
    | none => rfl
    | some d => simp [ih]

theorem parseHexAux_toHexAux (fuel : Nat) :
    ∀ n acc, n ≤ fuel →
      parseHexAux (toHexAux fuel n) acc = some (acc * 16 ^ (toHexAux fuel n).length + n) := by
  induction fuel with
  | zero =>
    intro n acc h
    interval_cases n
    simp [toHexAux, parseHexAux]
  | succ fuel ih =>
    intro n acc h
    by_cases hn : n = 0
    · subst hn
      simp [toHexAux, parseHexAux]
    · have hdiv : n / 16 ≤ fuel := by omega
      simp only [toHexAux, if_neg hn]
      rw [parseHexAux_append, ih (n / 16) acc hdiv]
      have hmod : n % 16 < 16 := Nat.mod_lt _ (by omega)
      simp only [parseHexAux, hexCharVal_hexDigitChar (n % 16) hmod]
      simp only [List.length_append, List.length_cons, List.length_nil]
      congr 1
      have h16 : 16 * (n / 16) + n % 16 = n := Nat.div_add_mod n 16
      ring_nf
      omega

theorem toHexAux_ne_nil (fuel n : Nat) (h1 : n ≠ 0) (h2 : fuel ≠ 0) :
    toHexAux fuel n ≠ [] := by
  cases fuel with
  | zero => omega
  | succ f => simp [toHexAux, h1]

theorem parseHex_natToHex (n : Nat) : parseHex (natToHex n) = some n := by
  by_cases hn : n = 0
  · subst hn; decide
  · simp only [natToHex, if_neg hn, parseHex]
    have hne := toHexAux_ne_nil n n hn hn
    rw [if_neg (by simpa [List.isEmpty_iff] using hne)]
    simpa using parseHexAux_toHexAux n n 0 le_rfl

theorem decodeByteList_encode (l : List Nat) (h : ∀ b ∈ l, b < 256) :
    decodeByteList (l.map Json.num) = some l := by
  induction l with
  | nil => rfl
  | cons b bs ih =>
    have hb : b < 256 := h b (by simp)
    have hbs : ∀ x ∈ bs, x < 256 := fun x hx => h x (by simp [hx])
    simp [decodeByteList, ih hbs, Nat.not_lt.mpr, hb]
    omega

theorem decodeBytes_encodeBytes (l : List Nat) (h : ∀ b ∈ l, b < 256) :
    decodeBytes (encodeBytes l) = some l := by
  simp [decodeBytes, encodeBytes, decodeByteList_encode l h]

theorem parseBytePairs_encode (l : List Nat) (h : ∀ b ∈ l, b < 256) :
    parseBytePairs ((l.map byteToHex).flatten) = some l := by
  induction l with
  | nil => rfl
  | cons b bs ih =>
    have hb : b < 256 := h b (by simp)
    have hbs : ∀ x ∈ bs, x < 256 := fun x hx => h x (by simp [hx])
    have h1 : b / 16 < 16 := by omega
    have h2 : b % 16 < 16 := Nat.mod_lt _ (by omega)
    simp only [List.map_cons, List.flatten_cons, byteToHex, List.cons_append, List.nil_append,
      parseBytePairs, hexCharVal_hexDigitChar _ h1, hexCharVal_hexDigitChar _ h2]
    rw [show ([] : List Char).append (List.map byteToHex bs).flatten
      = (List.map byteToHex bs).flatten from rfl, ih hbs]
    have hdm : b / 16 * 16 + b % 16 = b := by omega
    simp [hdm]

theorem decodeU256_encodeU256 (n : Nat) : decodeU256 (encodeU256 n) = some n := by
  simp [decodeU256, encodeU256, parseHex_natToHex]

theorem decodeHash_encodeHash (bs : List Nat) (hlen : bs.length = 32)
    (h : ∀ b ∈ bs, b < 256) : decodeHash (encodeHash bs) = some bs := by
  simp [decodeHash, encodeHash, parseBytePairs_encode bs h, hlen]

theorem nmtRoot_roundtrip (r : NmtRoot) (h : ∀ b ∈ r.root, b < 256) :
    NmtRoot.fromJson r.toJson = some r := by
  simp [NmtRoot.fromJson, NmtRoot.toJson, jGet, List.find?,
    decodeBytes_encodeBytes r.root h]

theorem l1BlockInfo_roundtrip (i : L1BlockInfo) (hlen : i.hash.length = 32)
    (h : ∀ b ∈ i.hash, b < 256) : L1BlockInfo.fromJson i.toJson = some i := by
  simp [L1BlockInfo.fromJson, L1BlockInfo.toJson, jGet, List.find?,
    decodeU256_encodeU256, decodeHash_encodeHash i.hash hlen h]

theorem metadata_roundtrip (m : Metadata)
    (hfin : ∀ i, m.l1Finalized = some i → i.hash.length = 32 ∧ ∀ b ∈ i.hash, b < 256) :
    Metadata.fromJson m.toJson = some m := by
  cases hm : m.l1Finalized with
  | none =>
    cases m
    simp_all [Metadata.fromJson, Metadata.toJson, jGet, List.find?]
  | some i =>
    obtain ⟨h1, h2⟩ := hfin i hm
    cases m
    simp_all [Metadata.fromJson, Metadata.toJson, jGet, List.find?,
      L1BlockInfo.toJson, L1BlockInfo.fromJson, decodeU256_encodeU256,
      decodeHash_encodeHash i.hash h1 h2]

theorem header_roundtrip (h : Header) (hroot : ∀ b ∈ h.transactionsRoot.root, b < 256)
    (hfin : ∀ i, h.metadata.l1Finalized = some i →
      i.hash.length = 32 ∧ ∀ b ∈ i.hash, b < 256) :
    Header.fromJson h.toJson = some h := by
  cases h with
  | mk r m =>
    simp only [Header.fromJson, Header.toJson, jGet, List.find?]
    simp [nmtRoot_roundtrip r hroot, metadata_roundtrip m hfin]

/-! ### Claim theorems -/

/-- Claim C1: for every configuration, parent L2 block reference and suggested
L1 origin, the L1 origin returned by `EspressoL1Origin` is either the
parent's L1 origin number or that number plus one — unconditionally for the
pure variant, and for the fetching variant whenever the L1 fetcher labels
blocks with the requested number and the call succeeds. -/
theorem espressoL1Origin_bounds :
    (∀ (cfg : RollupConfig) (parent : L2BlockRef) (suggested : L1BlockRef),
      EspressoL1OriginPure cfg parent suggested = parent.l1Origin.number ∨
      EspressoL1OriginPure cfg parent suggested = parent.l1Origin.number + 1) ∧
    (∀ (cfg : RollupConfig) (sysCfg : SystemConfig) (parent : L2BlockRef)
      (suggested : Nat) (l1 : L1Fetch) (ref : L1BlockRef),
      (∀ n b, l1 n = Except.ok b → b.number = n) →
      EspressoL1Origin cfg sysCfg parent suggested l1 = Except.ok ref →
      ref.number = parent.l1Origin.number ∨ ref.number = parent.l1Origin.number + 1) := by
  constructor
  · intro cfg parent suggested
    simp only [EspressoL1OriginPure]
    split_ifs with h1 h2 h3 h4
    · right; rfl
    · left; rfl
    · right; rfl
    · left; rfl
    · omega
  · intro cfg sysCfg parent suggested l1 ref hl1 h
    simp only [EspressoL1Origin] at h
    split_ifs at h with h1 h2
    · rcases hf : l1 (parent.l1Origin.number + 1) with e | nb
      · rw [hf] at h; cases h
      · rw [hf] at h
        dsimp only at h
        split_ifs at h with h3
        · cases h
          right
          exact hl1 _ _ hf
        · left
          exact hl1 _ _ h
    · left
      exact hl1 _ _ h
    · rcases hf : l1 (confDepthAdjust sysCfg suggested) with e | blk
      · rw [hf] at h; cases h
      · rw [hf] at h
        dsimp only at h
        split_ifs at h with h3 h4
        · right
          exact hl1 _ _ h
        · left
          exact hl1 _ _ h
        · cases h
          have := hl1 _ _ hf
          omega

theorem espressoL1Origin_bounds_witness :
    (⟨0, 8, 0, 5⟩ : L1BlockRef).number = exParent.l1Origin.number ∨
    (⟨0, 8, 0, 5⟩ : L1BlockRef).number = exParent.l1Origin.number + 1 :=
  espressoL1Origin_bounds.2 exCfg exSysCfg exParent 8 exFetchConst ⟨0, 8, 0, 5⟩
    (fun n b h => by injection h with h; rw [← h]) rfl

/-- Claim C2: when the confirmation-depth-adjusted suggestion exceeds the
parent's L1 origin number plus one-, `EspressoL1Origin` fetches block
`prev + 1` and returns it when its timestamp is at most the window start
`parent.time + blockTime`, and otherwise returns the fetch of block `prev`. -/
theorem espressoL1Origin_skip_rule (cfg : RollupConfig) (sysCfg : SystemConfig)
    (parent : L2BlockRef) (suggested : Nat) (l1 : L1Fetch) (b : L1BlockRef)
    (h1 : confDepthAdjust sysCfg suggested > parent.l1Origin.number + 1)
    (h2 : l1 (parent.l1Origin.number + 1) = Except.ok b) :
    EspressoL1Origin cfg sysCfg parent suggested l1 =
      if b.time ≤ parent.time + cfg.blockTime then Except.ok b
      else l1 parent.l1Origin.number := by
  simp only [EspressoL1Origin, if_pos h1, h2]

theorem espressoL1Origin_skip_rule_witness :
    confDepthAdjust exSysCfg 100 > exParent.l1Origin.number + 1 ∧
    EspressoL1Origin exCfg exSysCfg exParent 100 exFetchConst =
      if (⟨0, 8, 0, 5⟩ : L1BlockRef).time ≤ exParent.time + exCfg.blockTime
      then Except.ok ⟨0, 8, 0, 5⟩
      else exFetchConst exParent.l1Origin.number :=
  ⟨by decide, espressoL1Origin_skip_rule exCfg exSysCfg exParent 100 exFetchConst
    ⟨0, 8, 0, 5⟩ (by decide) rfl⟩

/-- Claim C10: when the L1 fetch succeeds but returns a commitment list of a
different length, `EspressoProvider.VerifyCommitments` returns `false`
together with a non-nil error (never `false` with a nil error). -/
theorem verifyCommitments_length_mismatch (fetch : Nat → Nat → Except Unit (List (List Nat)))
    (firstHeight : Nat) (comms l : List (List Nat))
    (h1 : fetch firstHeight comms.length = Except.ok l)
    (h2 : l.length ≠ comms.length) :
    EspressoProviderVerifyCommitments fetch firstHeight comms = (false, some ()) := by
  simp only [EspressoProviderVerifyCommitments, h1, if_pos h2]

theorem verifyCommitments_length_mismatch_witness :
    c10Fetch 0 (([[2], [3]] : List (List Nat)).length) = Except.ok [[1]] ∧
    EspressoProviderVerifyCommitments c10Fetch 0 [[2], [3]] = (false, some ()) :=
  ⟨rfl, verifyCommitments_length_mismatch c10Fetch 0 [[2], [3]] [[1]] rfl (by decide)⟩

/-- Claim C9: JSON decoding inverts JSON encoding for every `NmtRoot`,
`L1BlockInfo` and `Header` value (roots as integer arrays, `U256` as
`0x`-prefixed hex strings, 32-byte hashes as fixed-width hex, an absent
`l1_finalized` as `null`). -/
theorem espresso_types_json_roundtrip :
    (∀ r : NmtRoot, (∀ b ∈ r.root, b < 256) → NmtRoot.fromJson r.toJson = some r) ∧
    (∀ i : L1BlockInfo, i.hash.length = 32 → (∀ b ∈ i.hash, b < 256) →
      L1BlockInfo.fromJson i.toJson = some i) ∧
    (∀ h : Header, (∀ b ∈ h.transactionsRoot.root, b < 256) →
      (∀ i, h.metadata.l1Finalized = some i → i.hash.length = 32 ∧ ∀ b ∈ i.hash, b < 256) →
      Header.fromJson h.toJson = some h) :=
  ⟨nmtRoot_roundtrip, l1BlockInfo_roundtrip, header_roundtrip⟩

theorem espresso_types_json_roundtrip_witness :
    NmtRoot.fromJson (NmtRoot.toJson ⟨[0, 255]⟩) = some ⟨[0, 255]⟩ ∧
    L1BlockInfo.fromJson c9Info.toJson = some c9Info ∧
    Header.fromJson c9Header.toJson = some c9Header :=
  ⟨espresso_types_json_roundtrip.1 ⟨[0, 255]⟩ (by decide),
   espresso_types_json_roundtrip.2.1 c9Info (by decide) (by decide),
   espresso_types_json_roundtrip.2.2 c9Header (by decide)
     (by intro i hi; injection hi with hi; rw [← hi]; exact ⟨by decide, by decide⟩)⟩

/-! ### Helper lemmas: bookends and the Espresso check -/

theorem checkBookends_true_elim (t : Nat) (jst : L2BatchJustification) (e : windowEndpoint)
    (h : checkBookends t jst e = true) :
    (e.Bookends jst).2.timestamp ≥ t ∧
    ((e.Bookends jst).1 = none → jst.First.height = 0 ∧ t ≤ jst.First.timestamp) ∧
    (∀ p, (e.Bookends jst).1 = some p → p.timestamp < t) := by
  rcases hb : e.Bookends jst with ⟨p?, nx⟩
  cases p? with
  | none =>
    simp only [checkBookends, hb] at h
    split_ifs at h with h1 h2 h3
    refine ⟨?_, fun _ => ⟨by omega, by omega⟩, fun p hp => ?_⟩
    · show nx.timestamp ≥ t
      omega
    · exact absurd hp (by simp)
  | some p =>
    simp only [checkBookends, hb] at h
    split_ifs at h with h1 h2
    refine ⟨?_, fun hc => absurd hc (by simp), fun q hq => ?_⟩
    · show nx.timestamp ≥ t
      omega
    · have hpq : p = q := by
        have := hq
        simp only at this
        injection this
      subst hpq
      omega

theorem checkBatchEspresso_drop_of_bad_bookends (commit : EsHeader → List Nat)
    (nmtValidate : NmtValidator) (cfg : RollupConfig) (sysCfg : SystemConfig)
    (head : L2BlockRef) (batch : SingularBatch) (verify : CommitmentVerifier)
    (l1 : L1Fetch) (jst : L2BatchJustification)
    (hj : batch.justification = some jst)
    (hverr : (verify jst.First.height (commitmentSequence commit jst)).2 = none)
    (hbad : checkBookends (head.time + cfg.blockTime) jst windowEndpoint.WindowStart = false ∨
      checkBookends (head.time + cfg.blockTime + cfg.blockTime) jst
        windowEndpoint.WindowEnd = false) :
    CheckBatchEspresso commit nmtValidate cfg sysCfg head batch verify l1 =
      BatchValidity.Drop := by
  simp only [CheckBatchEspresso, hj]
  rcases hv : verify jst.First.height (commitmentSequence commit jst) with ⟨vb, verr⟩
  rw [hv] at hverr
  simp only at hverr
  subst hverr
  dsimp only
  cases vb with
  | false => rfl
  | true =>
    cases hws : checkBookends (head.time + cfg.blockTime) jst windowEndpoint.WindowStart with
    | false => rfl
    | true =>
      rcases hbad with hbad | hbad
      · rw [hbad] at hws; cases hws
      · simp only [hbad, Bool.not_false, if_pos, Bool.not_true]
        rfl

theorem checkBatchEspresso_accept_elim (commit : EsHeader → List Nat)
    (nmtValidate : NmtValidator) (cfg : RollupConfig) (sysCfg : SystemConfig)
    (head : L2BlockRef) (batch : SingularBatch) (verify : CommitmentVerifier)
    (l1 : L1Fetch) (jst : L2BatchJustification)
    (hj : batch.justification = some jst)
    (hacc : CheckBatchEspresso commit nmtValidate cfg sysCfg head batch verify l1 =
      BatchValidity.Accept) :
    verify jst.First.height (commitmentSequence commit jst) = (true, none) ∧
    checkBookends (head.time + cfg.blockTime) jst windowEndpoint.WindowStart = true ∧
    checkBookends (head.time + cfg.blockTime + cfg.blockTime) jst
      windowEndpoint.WindowEnd = true := by
  simp only [CheckBatchEspresso, hj] at hacc
  rcases hv : verify jst.First.height (commitmentSequence commit jst) with ⟨vb, verr⟩
  rw [hv] at hacc
  cases verr with
  | some e => cases hacc
  | none =>
    dsimp only at hacc
    cases vb with
    | false => cases hacc
    | true =>
      cases hws : checkBookends (head.time + cfg.blockTime) jst
          windowEndpoint.WindowStart with
      | false => rw [hws] at hacc; cases hacc
      | true =>
        cases hwe : checkBookends (head.time + cfg.blockTime + cfg.blockTime) jst
            windowEndpoint.WindowEnd with
        | false => rw [hws, hwe] at hacc; cases hacc
        | true => exact ⟨rfl, rfl, rfl⟩

/-- Claim C3: a bookend check passes only if the `next` bookend's timestamp is
at least the endpoint's timestamp, the missing-`prev` case additionally
requires the first supplied header to have height 0, and a present `prev`
must have a timestamp strictly before the endpoint — where the bookends are
`(jst.prev, first window block or jst.next)` for the window start and
`(last window block or jst.prev, jst.next)` for the window end; and when
either endpoint check fails (after a successful commitment comparison) the
Espresso validator returns Drop. -/
theorem checkBookends_endpoint_conditions :
    (∀ (t : Nat) (jst : L2BatchJustification) (e : windowEndpoint),
      checkBookends t jst e = true →
        (e.Bookends jst).2.timestamp ≥ t ∧
        ((e.Bookends jst).1 = none →
          jst.First.height = 0 ∧ (e.Bookends jst).2.timestamp ≥ t) ∧
        (∀ p, (e.Bookends jst).1 = some p → p.timestamp < t)) ∧
    (∀ (jst : L2BatchJustification),
      windowEndpoint.WindowStart.Bookends jst =
        (jst.prev,
          match jst.blocks with
          | b :: _ => b.header
          | [] => jst.next) ∧
      windowEndpoint.WindowEnd.Bookends jst =
        ((match jst.blocks.getLast? with
          | some b => some b.header
          | none => jst.prev), jst.next)) ∧
    (∀ (commit : EsHeader → List Nat) (nmtValidate : NmtValidator) (cfg : RollupConfig)
      (sysCfg : SystemConfig) (head : L2BlockRef) (batch : SingularBatch)
      (verify : CommitmentVerifier) (l1 : L1Fetch) (jst : L2BatchJustification),
      batch.justification = some jst →
      (verify jst.First.height (commitmentSequence commit jst)).2 = none →
      (checkBookends (head.time + cfg.blockTime) jst windowEndpoint.WindowStart = false ∨
       checkBookends (head.time + cfg.blockTime + cfg.blockTime) jst
         windowEndpoint.WindowEnd = false) →
      CheckBatchEspresso commit nmtValidate cfg sysCfg head batch verify l1 =
        BatchValidity.Drop) := by
  refine ⟨?_, fun jst => ⟨rfl, rfl⟩, checkBatchEspresso_drop_of_bad_bookends⟩
  intro t jst e h
  obtain ⟨hA, hB, hC⟩ := checkBookends_true_elim t jst e h
  exact ⟨hA, fun hn => ⟨(hB hn).1, hA⟩, hC⟩

theorem checkBookends_endpoint_conditions_witness :
    ((windowEndpoint.WindowStart.Bookends c4Jst).2.timestamp ≥ 12 ∧
      ((windowEndpoint.WindowStart.Bookends c4Jst).1 = none →
        c4Jst.First.height = 0 ∧ (windowEndpoint.WindowStart.Bookends c4Jst).2.timestamp ≥ 12) ∧
      (∀ p, (windowEndpoint.WindowStart.Bookends c4Jst).1 = some p → p.timestamp < 12)) ∧
    CheckBatchEspresso c4Commit c4NmtValidate exCfg exSysCfg exParent exBadBatch
      c4Verify exFetchConst = BatchValidity.Drop :=
  ⟨checkBookends_endpoint_conditions.1 12 c4Jst windowEndpoint.WindowStart (by decide),
   checkBookends_endpoint_conditions.2.2 c4Commit c4NmtValidate exCfg exSysCfg exParent
     exBadBatch c4Verify exFetchConst exJstBad rfl rfl (Or.inl (by decide))⟩

/-- Claim C4 (counterexample): the Espresso validator Accepts a batch whose
justification contains a middle window block with timestamp 100, far beyond
the window end 14, when the commitment provider approves the sequence. -/
theorem checkBatchEspresso_accepts_out_of_window_block :
    CheckBatchEspresso c4Commit c4NmtValidate exCfg exSysCfg exParent c4Batch
      c4Verify c4L1 = BatchValidity.Accept ∧
    c4HBad ∈ c4Jst.blocks.map (fun b => b.header) ∧
    ¬(c4HBad.timestamp < exParent.time + exCfg.blockTime + exCfg.blockTime) := by
  refine ⟨by decide, by decide, by decide⟩

/-- Claim C4 (amended): whenever the Espresso validator Accepts a batch with
justification `jst`, the timestamp of the LAST header of `jst.blocks` (when
the window is nonempty) is strictly less than the window end; timestamps of
headers strictly between the first and last window blocks are not
constrained by the validator. -/
theorem checkBatchEspresso_last_block_before_window_end (commit : EsHeader → List Nat)
    (nmtValidate : NmtValidator) (cfg : RollupConfig) (sysCfg : SystemConfig)
    (head : L2BlockRef) (batch : SingularBatch) (verify : CommitmentVerifier)
    (l1 : L1Fetch) (jst : L2BatchJustification) (b : EspressoBlockJustification)
    (hj : batch.justification = some jst)
    (hacc : CheckBatchEspresso commit nmtValidate cfg sysCfg head batch verify l1 =
      BatchValidity.Accept)
    (hlast : jst.blocks.getLast? = some b) :
    b.header.timestamp < head.time + cfg.blockTime + cfg.blockTime := by
  obtain ⟨-, -, hwe⟩ :=
    checkBatchEspresso_accept_elim commit nmtValidate cfg sysCfg head batch verify l1 jst
      hj hacc
  have helim := (checkBookends_true_elim _ jst windowEndpoint.WindowEnd hwe).2.2
  apply helim
  simp only [windowEndpoint.Bookends, hlast]

theorem checkBatchEspresso_last_block_before_window_end_witness :
    (⟨c4H3, []⟩ : EspressoBlockJustification).header.timestamp <
      exParent.time + exCfg.blockTime + exCfg.blockTime :=
  checkBatchEspresso_last_block_before_window_end c4Commit c4NmtValidate exCfg exSysCfg
    exParent c4Batch c4Verify c4L1 c4Jst ⟨c4H3, []⟩ rfl (by decide) rfl

/-- Claim C5: after building the commitment sequence, the Espresso validator
returns Undecided when the provider call reports a non-nil error, Drop when
it reports a mismatch (`false` with no error), and it reaches Accept only
when the call returned `true` with no error. -/
theorem checkBatchEspresso_commitment_outcomes :
    ∀ (commit : EsHeader → List Nat) (nmtValidate : NmtValidator) (cfg : RollupConfig)
      (sysCfg : SystemConfig) (head : L2BlockRef) (batch : SingularBatch)
      (verify : CommitmentVerifier) (l1 : L1Fetch) (jst : L2BatchJustification),
      batch.justification = some jst →
      ((∀ bval err,
          verify jst.First.height (commitmentSequence commit jst) = (bval, some err) →
          CheckBatchEspresso commit nmtValidate cfg sysCfg head batch verify l1 =
            BatchValidity.Undecided) ∧
       (verify jst.First.height (commitmentSequence commit jst) = (false, none) →
          CheckBatchEspresso commit nmtValidate cfg sysCfg head batch verify l1 =
            BatchValidity.Drop) ∧
       (CheckBatchEspresso commit nmtValidate cfg sysCfg head batch verify l1 =
            BatchValidity.Accept →
          verify jst.First.height (commitmentSequence commit jst) = (true, none))) := by
  intro commit nmtValidate cfg sysCfg head batch verify l1 jst hj
  refine ⟨?_, ?_, ?_⟩
  · intro bval err hv
    simp only [CheckBatchEspresso, hj, hv]
  · intro hv
    simp only [CheckBatchEspresso, hj, hv]
    rfl
  · intro hacc
    exact (checkBatchEspresso_accept_elim commit nmtValidate cfg sysCfg head batch verify
      l1 jst hj hacc).1

theorem checkBatchEspresso_commitment_outcomes_witness :
    CheckBatchEspresso c4Commit c4NmtValidate exCfg exSysCfg exParent
      (⟨0, 8, 0, 12, [], some c4Jst⟩ : SingularBatch) c5VerifyErr c4L1 =
      BatchValidity.Undecided ∧
    CheckBatchEspresso c4Commit c4NmtValidate exCfg exSysCfg exParent
      (⟨0, 8, 0, 12, [], some c4Jst⟩ : SingularBatch) c5VerifyFalse c4L1 =
      BatchValidity.Drop ∧
    c4Verify c4Jst.First.height (commitmentSequence c4Commit c4Jst) = (true, none) :=
  ⟨(checkBatchEspresso_commitment_outcomes c4Commit c4NmtValidate exCfg exSysCfg exParent
      _ c5VerifyErr c4L1 c4Jst rfl).1 false () rfl,
   (checkBatchEspresso_commitment_outcomes c4Commit c4NmtValidate exCfg exSysCfg exParent
      _ c5VerifyFalse c4L1 c4Jst rfl).2.1 rfl,
   (checkBatchEspresso_commitment_outcomes c4Commit c4NmtValidate exCfg exSysCfg exParent
      c4Batch c4Verify c4L1 c4Jst rfl).2.2 (by decide)⟩

/-- Claim C6: when a batch exceeds the sequencer drift with empty transactions
and an unadvanced epoch, and at least two contextual L1 blocks are supplied,
the drift guard of `checkSingularBatch` never Drops in Espresso mode — the
next-origin-could-have-been-adopted rule applies only with Espresso
disabled — and validation continues into the Espresso-specific check. -/
theorem driftGuard_espresso_allows_empty :
    (∀ (cfg : RollupConfig) (sysCfg : SystemConfig) (epoch batchOrigin : L1BlockRef)
      (l1Blocks : List L1BlockRef) (timestamp : Nat) (transactions : List (List Nat)),
      timestamp > batchOrigin.time + cfg.maxSequencerDrift →
      transactions = [] →
      epoch.number = batchOrigin.number →
      2 ≤ l1Blocks.length →
      sysCfg.espresso = true →
      driftGuard cfg sysCfg epoch batchOrigin l1Blocks timestamp transactions = none) ∧
    (∀ (commit : EsHeader → List Nat) (nmtValidate : NmtValidator) (cfg : RollupConfig)
      (sysCfg : SystemConfig) (epoch : L1BlockRef) (rest : List L1BlockRef)
      (head : L2BlockRef) (batch : SingularBatch) (incl : L1BlockRef)
      (verify : CommitmentVerifier) (l1 : L1Fetch),
      batch.timestamp = head.time + cfg.blockTime →
      batch.parentHash = head.hash →
      ¬(batch.epochNum + cfg.seqWindowSize < incl.number) →
      batch.epochNum = epoch.number →
      batch.epochHash = epoch.hash →
      epoch.time ≤ batch.timestamp →
      batch.timestamp > epoch.time + cfg.maxSequencerDrift →
      batch.transactions = [] →
      2 ≤ (epoch :: rest).length →
      sysCfg.espresso = true →
      checkSingularBatch commit nmtValidate cfg sysCfg (epoch :: rest) head batch incl
          verify l1 =
        CheckBatchEspresso commit nmtValidate cfg sysCfg head batch verify l1) := by
  constructor
  · intro cfg sysCfg epoch batchOrigin l1Blocks timestamp transactions h1 h2 h3 h4 h5
    subst h2
    simp [driftGuard, h1, h3, h5, Nat.not_lt.mpr h4]
  · intro commit nmtValidate cfg sysCfg epoch rest head batch incl verify l1
      hts hph hsw hen heh hbt hdr htx hlen hes
    have hnl : 1 ≤ rest.length := by
      simp only [List.length_cons] at hlen
      omega
    have hguard : driftGuard cfg sysCfg epoch epoch (epoch :: rest) batch.timestamp
        batch.transactions = none := by
      rw [htx]
      simp [driftGuard, hdr, hes, hnl]
    simp only [checkSingularBatch]
    rw [if_neg (by omega), if_neg (by omega), if_neg (by simp [hph]), if_neg hsw,
      if_neg (by omega), if_pos hen]
    dsimp only
    rw [if_neg (by simp [heh]), if_neg (by omega), hguard]
    dsimp only
    rw [if_neg (by rw [htx]; simp), if_pos hes]

theorem driftGuard_espresso_allows_empty_witness :
    driftGuard exCfg exSysCfg c6Origin c6Origin [c6Origin, c6Next] 20 [] = none ∧
    checkSingularBatch c4Commit c4NmtValidate exCfg exSysCfg [c6Origin, c6Next] exParent
        (⟨1, 7, 9, 12, [], some c4Jst⟩ : SingularBatch) c6Origin c4Verify c4L1 =
      CheckBatchEspresso c4Commit c4NmtValidate exCfg exSysCfg exParent
        (⟨1, 7, 9, 12, [], some c4Jst⟩ : SingularBatch) c4Verify c4L1 :=
  ⟨driftGuard_espresso_allows_empty.1 exCfg exSysCfg c6Origin c6Origin [c6Origin, c6Next]
      20 [] (by decide) rfl rfl (by decide) rfl,
   driftGuard_espresso_allows_empty.2 c4Commit c4NmtValidate exCfg exSysCfg c6Origin
      [c6Next] exParent _ c6Origin c4Verify c4L1 rfl rfl (by decide) rfl rfl (by decide)
      (by decide) rfl (by decide) rfl⟩

/-- Claim C8: `NamespaceResponse.Validate` never compares the fetched block's
commitment with the expected header — its result is independent of the
header argument, and it returns transactions for two headers with different
commitments. -/
theorem namespaceResponseValidate_ignores_header :
    (∀ (parse : List Nat → Except Unit NamespaceProof) (raw : List Nat)
      (h1 h2 : Header) (ns : Nat),
      NamespaceResponseValidate parse raw h1 ns = NamespaceResponseValidate parse raw h2 ns) ∧
    c8HeaderA.Commit ≠ c8HeaderB.Commit ∧
    NamespaceResponseValidate c8Parse c8Raw c8HeaderA 901 = Except.ok c8Result ∧
    NamespaceResponseValidate c8Parse c8Raw c8HeaderB 901 = Except.ok c8Result :=
  ⟨fun _ _ _ _ _ => rfl, by decide, rfl, rfl⟩

/-- Claim C7: committing the reference vectors reproduces the stated 32-byte
values: the all-zero 48-byte NmtRoot, the legacy L1BlockInfo `{123, 0x456}`,
and the legacy Header `{789, l1_block, transactions_root}`. -/
theorem reference_commitments_stable :
    ReferenceNmtRoot.Commit = ReferenceNmtRootComm ∧
    ReferenceL1BlockInfo.Commit = ReferenceL1BlockInfoComm ∧
    ReferenceHeader.Commit = ReferenceHeaderComm := by
  refine ⟨by decide, by decide, by decide⟩
